import Mathlib

/-!
Shallow embedding of the decision engine of the `forexanalyizer` repository
(`src/risk/risk_manager.py`, `src/analysis/trend_momentum.py`,
`src/analysis/multi_timeframe.py`, `src/ml/prediction_model.py`,
`src/indicators/technical_indicators.py`), together with theorems settling
the frozen claims about it.

Conventions of the embedding:
* Python floats are modelled as exact rationals (`ℚ`); `round(x, n)` is
  modelled as exact round-half-even to `n` decimal digits.
* A pandas `DataFrame` is modelled either as a list of OHLCV candles
  (for the trend-momentum engine, which only reads those columns) or as a
  generic column-indexed table (`DFrame`) for the indicator rules and the
  risk manager.
* A Python `dict` result whose set of keys depends on the branch taken is
  modelled as a structure with `Option` fields (`none` = key absent); a
  `dict[key]` access that can raise `KeyError` is modelled in the `Except`
  monad, with the missing key as the error value.
* Presentational strings interpolating formatted numbers (reasoning texts,
  level descriptions, timestamps) are not modelled; no claim mentions them.
-/

namespace ForexAnalyzer

/-- Trading signal: the only values the system ever produces. -/
inductive Sig
  | BUY
  | SELL
  | HOLD
deriving DecidableEq

/-- Momentum direction labels used by the trend-momentum engine. -/
inductive Direction
  | BULLISH
  | BEARISH
  | NEUTRAL
deriving DecidableEq

/-- Reversal type labels of `detect_reversal`. -/
inductive RevType
  | NONE
  | BULLISH_TO_BEARISH
  | BEARISH_TO_BULLISH
deriving DecidableEq

/-- Warning levels of `detect_reversal`. -/
inductive Warning
  | LOW
  | MEDIUM
  | HIGH
deriving DecidableEq

/-- Round-half-even to an integer: the rounding mode of Python `round`. -/
def roundHalfEven (q : ℚ) : ℤ :=
  if q - ⌊q⌋ < 1/2 then ⌊q⌋
  else if 1/2 < q - ⌊q⌋ then ⌊q⌋ + 1
  else if ⌊q⌋ % 2 = 0 then ⌊q⌋ else ⌊q⌋ + 1

/-- Model of Python `round(x, ndigits)` on exact rationals. -/
def pyRound (q : ℚ) (ndigits : ℕ) : ℚ :=
  (roundHalfEven (q * 10 ^ ndigits) : ℚ) / 10 ^ ndigits

theorem roundHalfEven_le (q : ℚ) : (roundHalfEven q : ℚ) ≤ q + 1/2 := by
  have h1 := Int.floor_le q
  have h2 := Int.lt_floor_add_one q
  unfold roundHalfEven
  split_ifs <;> push_cast <;> linarith

theorem le_roundHalfEven (q : ℚ) : q - 1/2 ≤ (roundHalfEven q : ℚ) := by
  have h1 := Int.floor_le q
  have h2 := Int.lt_floor_add_one q
  unfold roundHalfEven
  split_ifs <;> push_cast <;> linarith

theorem pyRound5_le (q : ℚ) : pyRound q 5 ≤ q + 1/200000 := by
  have h := roundHalfEven_le (q * 10 ^ 5)
  have h5 : (0:ℚ) < 10 ^ 5 := by norm_num
  unfold pyRound
  rw [div_le_iff₀ h5]
  nlinarith

theorem le_pyRound5 (q : ℚ) : q - 1/200000 ≤ pyRound q 5 := by
  have h := le_roundHalfEven (q * 10 ^ 5)
  have h5 : (0:ℚ) < 10 ^ 5 := by norm_num
  unfold pyRound
  rw [le_div_iff₀ h5]
  nlinarith

/-! ## Risk manager: `src/risk/risk_manager.py` -/

/-- One stop-loss ladder level (the descriptive text and tag fields of the
source dict are presentational and not modelled). -/
structure SLevel where
  price : ℚ
  risk_pct : ℚ
deriving DecidableEq

/-- The five-level stop-loss ladder returned by
`RiskManager._calculate_multiple_stop_losses`. -/
structure StopLadder where
  tight_1atr : SLevel
  standard_2atr : SLevel
  wide_3atr : SLevel
  percentage_2pct : SLevel
  percentage_3pct : SLevel
deriving DecidableEq

/-- One take-profit ladder level. -/
structure TPLevel where
  price : ℚ
  gain_pct : ℚ
  position_close_pct : ℚ
deriving DecidableEq

/-- The four-level take-profit ladder returned by
`RiskManager._calculate_multiple_take_profits`. -/
structure TPLadder where
  tp1_quick : TPLevel
  tp2_conservative : TPLevel
  tp3_moderate : TPLevel
  tp4_aggressive : TPLevel
deriving DecidableEq

/-- Embedding of `RiskManager._calculate_multiple_stop_losses`.  The Python
`else` branch (taken for any non-`'BUY'` signal) is the SELL branch. -/
def calculate_multiple_stop_losses (entry_price : ℚ) (signal : Sig) (atr : ℚ) :
    StopLadder :=
  if signal = .BUY then
    { tight_1atr :=
        ⟨pyRound (entry_price - 1 * atr) 5, pyRound (1 * atr / entry_price * 100) 2⟩
      standard_2atr :=
        ⟨pyRound (entry_price - 2 * atr) 5, pyRound (2 * atr / entry_price * 100) 2⟩
      wide_3atr :=
        ⟨pyRound (entry_price - 3 * atr) 5, pyRound (3 * atr / entry_price * 100) 2⟩
      percentage_2pct := ⟨pyRound (entry_price * 0.98) 5, 2⟩
      percentage_3pct := ⟨pyRound (entry_price * 0.97) 5, 3⟩ }
  else
    { tight_1atr :=
        ⟨pyRound (entry_price + 1 * atr) 5, pyRound (1 * atr / entry_price * 100) 2⟩
      standard_2atr :=
        ⟨pyRound (entry_price + 2 * atr) 5, pyRound (2 * atr / entry_price * 100) 2⟩
      wide_3atr :=
        ⟨pyRound (entry_price + 3 * atr) 5, pyRound (3 * atr / entry_price * 100) 2⟩
      percentage_2pct := ⟨pyRound (entry_price * 1.02) 5, 2⟩
      percentage_3pct := ⟨pyRound (entry_price * 1.03) 5, 3⟩ }

/-- Embedding of `RiskManager._calculate_multiple_take_profits`. -/
def calculate_multiple_take_profits (entry_price : ℚ) (signal : Sig) (atr : ℚ) :
    TPLadder :=
  if signal = .BUY then
    { tp1_quick :=
        ⟨pyRound (entry_price + 1 * atr) 5, pyRound (1 * atr / entry_price * 100) 2, 25⟩
      tp2_conservative :=
        ⟨pyRound (entry_price + 2 * atr) 5, pyRound (2 * atr / entry_price * 100) 2, 25⟩
      tp3_moderate :=
        ⟨pyRound (entry_price + 3 * atr) 5, pyRound (3 * atr / entry_price * 100) 2, 25⟩
      tp4_aggressive :=
        ⟨pyRound (entry_price + 5 * atr) 5, pyRound (5 * atr / entry_price * 100) 2, 25⟩ }
  else
    { tp1_quick :=
        ⟨pyRound (entry_price - 1 * atr) 5, pyRound (1 * atr / entry_price * 100) 2, 25⟩
      tp2_conservative :=
        ⟨pyRound (entry_price - 2 * atr) 5, pyRound (2 * atr / entry_price * 100) 2, 25⟩
      tp3_moderate :=
        ⟨pyRound (entry_price - 3 * atr) 5, pyRound (3 * atr / entry_price * 100) 2, 25⟩
      tp4_aggressive :=
        ⟨pyRound (entry_price - 5 * atr) 5, pyRound (5 * atr / entry_price * 100) 2, 25⟩ }

/-- Result dictionary of `RiskManager.calculate_position_size`: the error
branch and the success branch populate different keys, so every field is
optional (`none` models an absent key). -/
structure PosInfo where
  position_size : Option ℚ := none
  position_size_units : Option ℚ := none
  position_size_lots : Option ℚ := none
  risk_amount : Option ℚ := none
  risk_percentage : Option ℚ := none
  stop_loss_distance : Option ℚ := none
  stop_loss_pct : Option ℚ := none
  error : Option String := none
deriving DecidableEq

/-- Embedding of `RiskManager.calculate_position_size`.  `risk_per_trade?`
models the optional argument; `cfg_risk_per_trade` is the configured
`risk_management.risk_per_trade` value used when the argument is `None`
(source default 0.02). -/
def calculate_position_size (account_balance entry_price stop_loss_price : ℚ)
    (risk_per_trade? : Option ℚ) (cfg_risk_per_trade : ℚ) : PosInfo :=
  let risk_per_trade := risk_per_trade?.getD cfg_risk_per_trade
  let risk_amount := account_balance * risk_per_trade
  let price_diff := |entry_price - stop_loss_price|
  if price_diff = 0 then
    { position_size := some 0
      risk_amount := some 0
      error := some "Invalid stop loss" }
  else
    let position_size := risk_amount / price_diff
    let standard_lot : ℚ := 100000
    let lots := position_size / standard_lot
    { position_size_units := some position_size
      position_size_lots := some lots
      risk_amount := some risk_amount
      risk_percentage := some (risk_per_trade * 100)
      stop_loss_distance := some price_diff
      stop_loss_pct := some (price_diff / entry_price * 100) }

/-- Generic model of a pandas `DataFrame` as seen by the indicator rules and
the risk manager: a set of column names plus a list of rows, each row an
association list from column name to value.  A value is read through
`colVal`, which models `df[c].iloc[...]` and fails (Python `KeyError`) when
the column is absent. -/
structure DFrame where
  cols : List String
  rows : List (List (String × ℚ))
deriving DecidableEq

/-- Number of rows, `len(df)`. -/
def DFrame.nrows (df : DFrame) : ℕ := df.rows.length

/-- Model of `df[c].iloc[-(back+1)]`: `back = 0` is the last row.  A missing
column raises `KeyError` (here: `Except.error` carrying the column name). -/
def DFrame.colVal (df : DFrame) (c : String) (back : ℕ) : Except String ℚ :=
  if c ∈ df.cols then
    .ok ((((df.rows.get? (df.rows.length - (back + 1))).getD []).lookup c).getD 0)
  else
    .error c

/-- Model of `df[c].iloc[-1]` at a place where the source has already
checked that column `c` exists. -/
def DFrame.lastVal (df : DFrame) (c : String) : ℚ :=
  (((df.rows.getLast?).getD []).lookup c).getD 0

/-- Configuration values read by `RiskManager` through
`self.risk_config.get(...)` / `self.confluence_config.get(...)`, with the
source's defaults, plus the manager's `current_drawdown` state (0.0 at
construction). -/
structure RiskConfig where
  risk_per_trade : ℚ := 0.02
  atr_multiplier : ℚ := 2
  min_risk_reward : ℚ := 1.5
  min_confidence : ℚ := 0.6
  max_drawdown : ℚ := 0.15
  current_drawdown : ℚ := 0
deriving DecidableEq

/-- Embedding of `RiskManager.calculate_stop_loss` (ATR-based stop; falls
back to a fixed 2% stop when the `ATR` column is absent). -/
def calculate_stop_loss (df : DFrame) (entry_price : ℚ) (signal : Sig)
    (atr_multiplier? : Option ℚ) (cfg : RiskConfig) : ℚ :=
  if "ATR" ∉ df.cols then
    if signal = .BUY then entry_price * 0.98 else entry_price * 1.02
  else
    let atr_multiplier := atr_multiplier?.getD cfg.atr_multiplier
    let atr := df.lastVal "ATR"
    let stop_distance := atr * atr_multiplier
    if signal = .BUY then entry_price - stop_distance else entry_price + stop_distance

/-- Embedding of `RiskManager.calculate_take_profit`. -/
def calculate_take_profit (entry_price stop_loss_price : ℚ) (signal : Sig)
    (risk_reward_ratio? : Option ℚ) (cfg : RiskConfig) : ℚ :=
  let risk_reward_ratio := risk_reward_ratio?.getD cfg.min_risk_reward
  let stop_distance := |entry_price - stop_loss_price|
  let profit_distance := stop_distance * risk_reward_ratio
  if signal = .BUY then entry_price + profit_distance else entry_price - profit_distance

/-- Result of `RiskManager.validate_trade`.  The reason strings of the
source are f-strings interpolating percentages; only their identities
matter here, so they are modelled by fixed tags. -/
structure ValidationOut where
  approved : Bool
  reasons : List String
deriving DecidableEq

/-- Embedding of `RiskManager.validate_trade`. -/
def validate_trade (signal : Sig) (confidence : ℚ) (cfg : RiskConfig) :
    ValidationOut :=
  if signal = .HOLD then
    { approved := false, reasons := ["Signal is HOLD"] }
  else
    let confReasons : List String :=
      if confidence < cfg.min_confidence then ["Confidence below minimum"] else []
    let ddReasons : List String :=
      if cfg.current_drawdown > cfg.max_drawdown then ["Drawdown exceeds limit"] else []
    let approved := ¬ confidence < cfg.min_confidence ∧
      ¬ cfg.current_drawdown > cfg.max_drawdown
    if approved then
      { approved := true, reasons := ["All risk checks passed"] }
    else
      { approved := false, reasons := confReasons ++ ddReasons }

/-- The fields of an approved trade-plan dictionary from
`RiskManager.create_trade_plan` (the `timestamp` field, wall-clock time, is
not modelled). -/
structure TradePlanFields where
  signal : Sig
  confidence : ℚ
  entry_price : ℚ
  stop_loss : ℚ
  take_profit : ℚ
  position_size_lots : ℚ
  position_size_units : ℚ
  risk_amount : ℚ
  risk_percentage : ℚ
  potential_profit : ℚ
  potential_loss : ℚ
  risk_reward_ratio : ℚ
deriving DecidableEq

/-- Outcome of `RiskManager.create_trade_plan` when it returns normally:
either the rejection dictionary or the full plan. -/
inductive TradePlanOut
  | rejected (signal : Sig) (reasons : List String)
  | plan (p : TradePlanFields)
deriving DecidableEq

/-- Model of a Python `dict[key]` access: `KeyError` when the key is
absent. -/
def require (o : Option α) (key : String) : Except String α :=
  match o with
  | some a => .ok a
  | none => .error key

/-- Embedding of `RiskManager.create_trade_plan`.  The accesses
`position_info['position_size_lots']` … are evaluated in the order of the
source's dict literal; each can raise `KeyError` when
`calculate_position_size` returned its error dictionary. -/
def create_trade_plan (signal : Sig) (entry_price confidence account_balance : ℚ)
    (df : DFrame) (cfg : RiskConfig) : Except String TradePlanOut :=
  let validation := validate_trade signal confidence cfg
  if validation.approved = false then
    .ok (.rejected signal validation.reasons)
  else
    let stop_loss := calculate_stop_loss df entry_price signal none cfg
    let take_profit := calculate_take_profit entry_price stop_loss signal none cfg
    let position_info :=
      calculate_position_size account_balance entry_price stop_loss none cfg.risk_per_trade
    do
      let lots ← require position_info.position_size_lots "position_size_lots"
      let units ← require position_info.position_size_units "position_size_units"
      let risk_amount ← require position_info.risk_amount "risk_amount"
      let risk_percentage ← require position_info.risk_percentage "risk_percentage"
      .ok (.plan
        { signal := signal
          confidence := confidence
          entry_price := entry_price
          stop_loss := stop_loss
          take_profit := take_profit
          position_size_lots := lots
          position_size_units := units
          risk_amount := risk_amount
          risk_percentage := risk_percentage
          potential_profit := |take_profit - entry_price| * units
          potential_loss := risk_amount
          risk_reward_ratio := |take_profit - entry_price| / |stop_loss - entry_price| })

/-! ## Trend momentum engine: `src/analysis/trend_momentum.py` -/

/-- One OHLCV candle (field names follow the source's column names; the
timestamp index plays no role in the analyzed computations). -/
structure Candle where
  Open : ℚ
  High : ℚ
  Low : ℚ
  Close : ℚ
  Volume : ℚ
deriving DecidableEq

/-- Model of `df.iloc[-k:]` for a row list: the last `k` rows, with the
Python quirk that `-0` is `0`, so `k = 0` yields the whole frame. -/
def ilocTail (l : List α) (k : ℕ) : List α :=
  if k = 0 then l else l.drop (l.length - k)

/-- Counts adjacent pairs satisfying `p` in a list: models
`sum(1 for i in range(1, len(xs)) if p(xs[i-1], xs[i]))`. -/
def countAdjacent (p : ℚ → ℚ → Bool) : List ℚ → ℕ
  | a :: b :: rest => (if p a b then 1 else 0) + countAdjacent p (b :: rest)
  | _ => 0

/-- Arithmetic mean of a list, as used on pandas series (`.mean()`). -/
def listMean (l : List ℚ) : ℚ := l.sum / l.length

/-- Result dictionary of `TrendMomentumAnalyzer.calculate_trend_momentum`.
The insufficient-data branch returns only the first four keys, so all the
others are optional. -/
structure TrendMomentum where
  direction : Direction
  strength : ℚ
  consistency : ℚ
  momentum_score : ℚ
  price_change_pct : Option ℚ := none
  bullish_candles : Option ℕ := none
  bearish_candles : Option ℕ := none
  higher_highs : Option ℕ := none
  lower_lows : Option ℕ := none
  volume_trend : Option ℚ := none
deriving DecidableEq

/-- The direction/strength if-chain of `calculate_trend_momentum`
(BULLISH when bullish candles exceed 1.5× the bearish ones, mirrored for
BEARISH, else NEUTRAL with strength 0.5). -/
def directionStrength (bullish_candles bearish_candles total_candles : ℕ) :
    Direction × ℚ :=
  if (bullish_candles : ℚ) > (bearish_candles : ℚ) * 1.5 then
    (.BULLISH, (bullish_candles : ℚ) / total_candles)
  else if (bearish_candles : ℚ) > (bullish_candles : ℚ) * 1.5 then
    (.BEARISH, (bearish_candles : ℚ) / total_candles)
  else
    (.NEUTRAL, 0.5)

/-- Embedding of `TrendMomentumAnalyzer.calculate_trend_momentum`.  The
`'Volume' in recent_df.columns` test of the source is always true in this
embedding, since candles carry a `Volume` field. -/
def calculate_trend_momentum (df : List Candle) (lookback : ℕ) : TrendMomentum :=
  if df.length < lookback then
    { direction := .NEUTRAL, strength := 0, consistency := 0, momentum_score := 0 }
  else
    let recent_df := ilocTail df lookback
    let bullish_candles := recent_df.countP (fun c => c.Close > c.Open)
    let bearish_candles := recent_df.countP (fun c => c.Close < c.Open)
    let closes := recent_df.map Candle.Close
    let price_change :=
      ((closes.getLast?.getD 0) - (closes.head?.getD 0)) / (closes.head?.getD 0)
    let price_momentum := price_change * 100
    let total_candles := recent_df.length
    let consistency := (max bullish_candles bearish_candles : ℚ) / total_candles
    let higher_highs := countAdjacent (fun a b => b > a) (recent_df.map Candle.High)
    let lower_lows := countAdjacent (fun a b => b < a) (recent_df.map Candle.Low)
    let vols := recent_df.map Candle.Volume
    let volume_trend := listMean (ilocTail vols 5) / listMean (vols.take 5)
    let dirStrength := directionStrength bullish_candles bearish_candles total_candles
    let direction := dirStrength.1
    let strength := dirStrength.2
    let momentum_score :=
      consistency * 0.3 +
      |price_momentum| / 10 * 0.3 +
      strength * 0.2 +
      ((if direction = .BULLISH then higher_highs else lower_lows : ℕ) : ℚ) /
        ((total_candles - 1 : ℕ) : ℚ) * 0.2
    { direction := direction
      strength := strength
      consistency := consistency
      momentum_score := min momentum_score 1
      price_change_pct := some price_momentum
      bullish_candles := some bullish_candles
      bearish_candles := some bearish_candles
      higher_highs := some higher_highs
      lower_lows := some lower_lows
      volume_trend := some volume_trend }

/-- Result dictionary of `TrendMomentumAnalyzer.detect_reversal`; the
insufficient-data branch omits several keys. -/
structure RevResult where
  is_reversal : Bool
  reversal_strength : ℚ
  reversal_type : RevType
  previous_trend : Direction
  previous_trend_strength : Option ℚ := none
  recent_trend : Option Direction := none
  recent_trend_strength : Option ℚ := none
  warning_level : Warning
  historical_momentum : Option TrendMomentum := none
  recent_momentum : Option TrendMomentum := none
deriving DecidableEq

/-- Model of `df.iloc[-(h+r):-r]`: the historical segment.  With `r = 0`
the Python slice `[-(h+0):-0]` is `[len-h : 0]`, which is empty. -/
def ilocHistorical (l : List Candle) (h r : ℕ) : List Candle :=
  if r = 0 then [] else (l.drop (l.length - (h + r))).take h

/-- The warning-level if-chain of `detect_reversal`: HIGH when the recent
consistency exceeds 0.7, MEDIUM when it exceeds 0.5, else LOW. -/
def warningLevelOf (consistency : ℚ) : Warning :=
  if consistency > 0.7 then .HIGH
  else if consistency > 0.5 then .MEDIUM
  else .LOW

/-- The reversal-decision if-chain of `detect_reversal`:
(is_reversal, reversal_type, reversal_strength, warning_level). -/
def reversalHit (historical_momentum recent_momentum : TrendMomentum) :
    Bool × RevType × ℚ × Warning :=
  if historical_momentum.momentum_score > 0.6 then
    if historical_momentum.direction = .BULLISH ∧
        recent_momentum.direction = .BEARISH then
      (true, .BULLISH_TO_BEARISH, recent_momentum.consistency,
        warningLevelOf recent_momentum.consistency)
    else if historical_momentum.direction = .BEARISH ∧
        recent_momentum.direction = .BULLISH then
      (true, .BEARISH_TO_BULLISH, recent_momentum.consistency,
        warningLevelOf recent_momentum.consistency)
    else
      (false, .NONE, 0, .LOW)
  else
    (false, .NONE, 0, .LOW)

/-- Embedding of `TrendMomentumAnalyzer.detect_reversal`. -/
def detect_reversal (df : List Candle) (recent_lookback historical_lookback : ℕ) :
    RevResult :=
  if df.length < historical_lookback + recent_lookback then
    { is_reversal := false
      reversal_strength := 0
      reversal_type := .NONE
      previous_trend := .NEUTRAL
      warning_level := .LOW }
  else
    let historical_df := ilocHistorical df historical_lookback recent_lookback
    let historical_momentum := calculate_trend_momentum historical_df historical_lookback
    let recent_df := ilocTail df recent_lookback
    let recent_momentum := calculate_trend_momentum recent_df recent_lookback
    let hit := reversalHit historical_momentum recent_momentum
    { is_reversal := hit.1
      reversal_strength := hit.2.2.1
      reversal_type := hit.2.1
      previous_trend := historical_momentum.direction
      previous_trend_strength := some historical_momentum.momentum_score
      recent_trend := some recent_momentum.direction
      recent_trend_strength := some recent_momentum.momentum_score
      warning_level := hit.2.2.2
      historical_momentum := some historical_momentum
      recent_momentum := some recent_momentum }

/-- Signal/confidence pair returned by
`TrendMomentumAnalyzer.calculate_weighted_signal` (the third component of
the source's tuple, the human-readable reasoning string, is presentational
and not modelled). -/
structure WeightedOut where
  final_signal : Sig
  confidence : ℚ
deriving DecidableEq

/-- Embedding of `TrendMomentumAnalyzer.calculate_weighted_signal`.  The
`momentum.get(...)` / `reversal.get(...)` accesses always find their keys
on the structures of this embedding, so they are plain field reads. -/
def calculate_weighted_signal (current_signal : Sig) (momentum : TrendMomentum)
    (reversal : RevResult)
    (current_weight momentum_weight reversal_weight : ℚ) : WeightedOut :=
  let current_score : ℚ :=
    match current_signal with
    | .BUY => 1
    | .SELL => -1
    | .HOLD => 0
  let momentum_strength := momentum.momentum_score
  let momentum_score : ℚ :=
    match momentum.direction with
    | .BULLISH => momentum_strength
    | .BEARISH => -momentum_strength
    | .NEUTRAL => 0
  let reversal_score : ℚ :=
    if reversal.is_reversal then
      match reversal.reversal_type with
      | .BULLISH_TO_BEARISH => -reversal.reversal_strength
      | .BEARISH_TO_BULLISH => reversal.reversal_strength
      | .NONE => 0
    else 0
  let final_score :=
    current_score * current_weight +
    momentum_score * momentum_weight +
    reversal_score * reversal_weight
  let final_signal : Sig :=
    if final_score > 0.3 then .BUY
    else if final_score < -0.3 then .SELL
    else .HOLD
  { final_signal := final_signal
    confidence := min |final_score| 1 }

/-! ## Cross-timeframe consensus: `src/analysis/multi_timeframe.py` -/

/-- The fields of one per-timeframe analysis dictionary that
`MultiTimeframeAnalyzer.get_timeframe_consensus` reads.  Every access in
the source uses `dict.get` with a default, so each field is optional. -/
structure TFAnalysis where
  enhanced_signal : Option Sig := none
  current_consensus : Option Sig := none
  signal_confidence : Option ℚ := none
  reversal_detection : Option RevResult := none
deriving DecidableEq

/-- The per-timeframe reversal alert appended to `reversals_detected`:
(timeframe, reversal_type, strength, warning_level). -/
abbrev RevAlert := String × RevType × ℚ × Warning

/-- Accumulator of the counting loop of `get_timeframe_consensus`. -/
structure Tally where
  buy_count : ℕ := 0
  sell_count : ℕ := 0
  hold_count : ℕ := 0
  weighted_buy : ℚ := 0
  weighted_sell : ℚ := 0
  reversals_detected : List RevAlert := []
deriving DecidableEq

/-- The effective signal of a timeframe:
`analysis.get('enhanced_signal', analysis.get('current_consensus', 'HOLD'))`. -/
def effectiveSignal (a : TFAnalysis) : Sig :=
  a.enhanced_signal.getD (a.current_consensus.getD .HOLD)

/-- One iteration of the counting loop of `get_timeframe_consensus`. -/
def tallyStep (timeframe_weights : List (String × ℚ)) (acc : Tally)
    (entry : String × TFAnalysis) : Tally :=
  let tf := entry.1
  let analysis := entry.2
  let weight := (timeframe_weights.lookup tf).getD 0.1
  let signal_confidence := analysis.signal_confidence.getD 0.5
  let confidence_weight := weight * signal_confidence
  let acc :=
    match analysis.reversal_detection with
    | some rev =>
      if rev.is_reversal then
        { acc with reversals_detected := acc.reversals_detected ++
            [(tf, rev.reversal_type, rev.reversal_strength, rev.warning_level)] }
      else acc
    | none => acc
  match effectiveSignal analysis with
  | .BUY => { acc with buy_count := acc.buy_count + 1,
                       weighted_buy := acc.weighted_buy + confidence_weight }
  | .SELL => { acc with sell_count := acc.sell_count + 1,
                        weighted_sell := acc.weighted_sell + confidence_weight }
  | .HOLD => { acc with hold_count := acc.hold_count + 1 }

/-- The counting loop of `get_timeframe_consensus` over the analyses map
(a Python dict, modelled as an insertion-ordered association list). -/
def tally (timeframe_weights : List (String × ℚ))
    (analyses : List (String × TFAnalysis)) : Tally :=
  analyses.foldl (tallyStep timeframe_weights) {}

/-- Result dictionary of `get_timeframe_consensus`; the empty-input early
return omits the count/reversal keys, so those are optional. -/
structure ConsensusOut where
  consensus : Sig
  agreement_count : ℕ
  total_timeframes : ℕ
  confidence : ℚ
  buy_timeframes : Option ℕ := none
  sell_timeframes : Option ℕ := none
  hold_timeframes : Option ℕ := none
  reversals_detected : Option (List RevAlert) := none
  has_reversal_warning : Option Bool := none
deriving DecidableEq

/-- The consensus-determination if-chain of `get_timeframe_consensus`:
(consensus, agreement_count, confidence). -/
def consensusCore (t : Tally) (min_timeframes_agree : ℕ) : Sig × ℕ × ℚ :=
  if t.weighted_buy > t.weighted_sell ∧ t.buy_count ≥ min_timeframes_agree then
    (.BUY, t.buy_count, t.weighted_buy)
  else if t.weighted_sell > t.weighted_buy ∧ t.sell_count ≥ min_timeframes_agree then
    (.SELL, t.sell_count, t.weighted_sell)
  else
    (.HOLD, t.hold_count, 0.5)

/-- Embedding of `MultiTimeframeAnalyzer.get_timeframe_consensus`.
`timeframe_weights` models `self.config.get('timeframe_weights', …)` (the
per-timeframe weight lookup defaults to 0.1) and `min_timeframes_agree`
models `self.config.get('confluence', {}).get('min_timeframes_agree', 3)`. -/
def get_timeframe_consensus (timeframe_weights : List (String × ℚ))
    (min_timeframes_agree : ℕ)
    (analyses : List (String × TFAnalysis)) : ConsensusOut :=
  if analyses = [] then
    { consensus := .HOLD
      agreement_count := 0
      total_timeframes := 0
      confidence := 0 }
  else
    let t := tally timeframe_weights analyses
    let total_timeframes := analyses.length
    let core := consensusCore t min_timeframes_agree
    { consensus := core.1
      agreement_count := core.2.1
      total_timeframes := total_timeframes
      confidence := core.2.2
      buy_timeframes := some t.buy_count
      sell_timeframes := some t.sell_count
      hold_timeframes := some t.hold_count
      reversals_detected := some t.reversals_detected
      has_reversal_warning := some (t.reversals_detected.length > 0) }

/-! ## Ensemble voting: `src/ml/prediction_model.py` -/

/-- Classifier prediction consumed by `EnsembleVoting.vote`. -/
structure MLPred where
  signal : Sig
  confidence : ℚ
deriving DecidableEq

/-- The voting weights dictionary (source default `{'ml': 0.5,
'technical': 0.5}`). -/
structure VoteWeights where
  ml : ℚ := 0.5
  technical : ℚ := 0.5
deriving DecidableEq

/-- Result dictionary of `EnsembleVoting.vote`. -/
structure VoteOut where
  signal : Sig
  confidence : ℚ
  technical_signal : Sig
  technical_confidence : ℚ
  ml_signal : Sig
  ml_confidence : ℚ
deriving DecidableEq

/-- The technical-consensus part of `EnsembleVoting.vote`: majority over
the technical signal map with confidence `winning count / total` (0.5 on a
tie). -/
def techConsensus (technical_signals : List (String × Sig)) : Sig × ℚ :=
  let tech_buy := technical_signals.countP (fun s => s.2 = .BUY)
  let tech_sell := technical_signals.countP (fun s => s.2 = .SELL)
  let tech_total := technical_signals.length
  if tech_buy > tech_sell then (.BUY, (tech_buy : ℚ) / tech_total)
  else if tech_sell > tech_buy then (.SELL, (tech_sell : ℚ) / tech_total)
  else (.HOLD, 0.5)

/-- The weighted buy/sell scores of `EnsembleVoting.vote`. -/
def voteScores (technical_signals : List (String × Sig)) (ml_prediction : MLPred)
    (weights : VoteWeights) : ℚ × ℚ :=
  let tc := techConsensus technical_signals
  let buy_score :=
    (if tc.1 = .BUY then weights.technical * tc.2 else 0) +
    (if ml_prediction.signal = .BUY then weights.ml * ml_prediction.confidence else 0)
  let sell_score :=
    (if tc.1 = .SELL then weights.technical * tc.2 else 0) +
    (if ml_prediction.signal = .SELL then weights.ml * ml_prediction.confidence else 0)
  (buy_score, sell_score)

/-- The final-decision if-chain of `EnsembleVoting.vote`:
(final_signal, final_confidence). -/
def voteFinal (buy_score sell_score : ℚ) : Sig × ℚ :=
  if buy_score > sell_score ∧ buy_score > 0.5 then (.BUY, buy_score)
  else if sell_score > buy_score ∧ sell_score > 0.5 then (.SELL, sell_score)
  else (.HOLD, 0.5)

/-- Embedding of `EnsembleVoting.vote`. -/
def vote (technical_signals : List (String × Sig)) (ml_prediction : MLPred)
    (weights : VoteWeights) : VoteOut :=
  let tc := techConsensus technical_signals
  let scores := voteScores technical_signals ml_prediction weights
  let buy_score := scores.1
  let sell_score := scores.2
  let final := voteFinal buy_score sell_score
  { signal := final.1
    confidence := final.2
    technical_signal := tc.1
    technical_confidence := tc.2
    ml_signal := ml_prediction.signal
    ml_confidence := ml_prediction.confidence }

/-! ## Indicator signal rules: `src/indicators/technical_indicators.py`,
class `SignalGenerator`.  Each rule is embedded in the `Except` monad so
that a `df[col]` access on an absent column surfaces as the Python
`KeyError` it raises. -/

/-- Embedding of `SignalGenerator.ma_crossover_signal`. -/
def ma_crossover_signal (df : DFrame) (fast_period slow_period : ℕ) :
    Except String Sig :=
  if df.nrows < 2 then .ok .HOLD
  else
    let fast_col := "MA_" ++ toString fast_period
    let slow_col := "MA_" ++ toString slow_period
    if fast_col ∉ df.cols ∨ slow_col ∉ df.cols then .ok .HOLD
    else do
      let fast_current ← df.colVal fast_col 0
      let fast_prev ← df.colVal fast_col 1
      let slow_current ← df.colVal slow_col 0
      let slow_prev ← df.colVal slow_col 1
      let price_current ← df.colVal "Close" 0
      if fast_prev ≤ slow_prev ∧ fast_current > slow_current then .ok .BUY
      else if fast_prev ≥ slow_prev ∧ fast_current < slow_current then .ok .SELL
      else if fast_current > slow_current ∧ price_current > fast_current then .ok .BUY
      else if fast_current < slow_current ∧ price_current < fast_current then .ok .SELL
      else .ok .HOLD

/-- Embedding of `SignalGenerator.ema_crossover_signal`. -/
def ema_crossover_signal (df : DFrame) (fast_period slow_period : ℕ) :
    Except String Sig :=
  if df.nrows < 2 then .ok .HOLD
  else
    let fast_col := "EMA_" ++ toString fast_period
    let slow_col := "EMA_" ++ toString slow_period
    if fast_col ∉ df.cols ∨ slow_col ∉ df.cols then .ok .HOLD
    else do
      let fast_current ← df.colVal fast_col 0
      let fast_prev ← df.colVal fast_col 1
      let slow_current ← df.colVal slow_col 0
      let slow_prev ← df.colVal slow_col 1
      let price_current ← df.colVal "Close" 0
      if fast_prev ≤ slow_prev ∧ fast_current > slow_current then .ok .BUY
      else if fast_prev ≥ slow_prev ∧ fast_current < slow_current then .ok .SELL
      else if fast_current > slow_current ∧ price_current > fast_current then .ok .BUY
      else if fast_current < slow_current ∧ price_current < fast_current then .ok .SELL
      else .ok .HOLD

/-- Embedding of `SignalGenerator.rsi_signal`. -/
def rsi_signal (df : DFrame) (overbought oversold : ℚ) : Except String Sig :=
  if "RSI" ∉ df.cols ∨ df.nrows < 2 then .ok .HOLD
  else do
    let rsi_current ← df.colVal "RSI" 0
    let rsi_prev ← df.colVal "RSI" 1
    if rsi_prev < oversold ∧ rsi_current ≥ oversold then .ok .BUY
    else if rsi_prev > overbought ∧ rsi_current ≤ overbought then .ok .SELL
    else if rsi_current < oversold ∧ rsi_current > rsi_prev then .ok .BUY
    else if rsi_current > overbought ∧ rsi_current < rsi_prev then .ok .SELL
    else if rsi_current < 50 ∧ rsi_current > rsi_prev + 2 then .ok .BUY
    else if rsi_current > 50 ∧ rsi_current < rsi_prev - 2 then .ok .SELL
    else .ok .HOLD

/-- Embedding of `SignalGenerator.macd_signal`.  Note that the source only
checks the `MACD` column before also reading `MACD_Signal` and
`MACD_Hist`. -/
def macd_signal (df : DFrame) : Except String Sig :=
  if "MACD" ∉ df.cols ∨ df.nrows < 2 then .ok .HOLD
  else do
    let macd_current ← df.colVal "MACD" 0
    let macd_prev ← df.colVal "MACD" 1
    let signal_current ← df.colVal "MACD_Signal" 0
    let signal_prev ← df.colVal "MACD_Signal" 1
    let hist_current ← df.colVal "MACD_Hist" 0
    let hist_prev ← df.colVal "MACD_Hist" 1
    if macd_prev ≤ signal_prev ∧ macd_current > signal_current then .ok .BUY
    else if macd_prev ≥ signal_prev ∧ macd_current < signal_current then .ok .SELL
    else if macd_current > signal_current ∧ hist_current > hist_prev then .ok .BUY
    else if macd_current < signal_current ∧ hist_current < hist_prev then .ok .SELL
    else .ok .HOLD

/-- Embedding of `SignalGenerator.stochastic_signal`.  The source only
checks the `Stoch_K` column before also reading `Stoch_D`. -/
def stochastic_signal (df : DFrame) (overbought oversold : ℚ) : Except String Sig :=
  if "Stoch_K" ∉ df.cols ∨ df.nrows < 2 then .ok .HOLD
  else do
    let k_current ← df.colVal "Stoch_K" 0
    let d_current ← df.colVal "Stoch_D" 0
    let k_prev ← df.colVal "Stoch_K" 1
    let d_prev ← df.colVal "Stoch_D" 1
    if k_prev ≤ d_prev ∧ k_current > d_current ∧ k_current < oversold then .ok .BUY
    else if k_prev ≥ d_prev ∧ k_current < d_current ∧ k_current > overbought then .ok .SELL
    else if k_current < oversold ∧ k_current > d_current then .ok .BUY
    else if k_current > overbought ∧ k_current < d_current then .ok .SELL
    else if k_current > d_current ∧ k_current > k_prev ∧ k_current < 50 then .ok .BUY
    else if k_current < d_current ∧ k_current < k_prev ∧ k_current > 50 then .ok .SELL
    else .ok .HOLD

/-- Whether a rule returned normally (no Python exception). -/
def ruleOk (e : Except String Sig) : Bool :=
  match e with
  | .ok _ => true
  | .error _ => false

/-! ## Theorems about the risk manager (claims C1, C7, C8) -/

theorem pyRound5_lt_right (x e : ℚ) (h : x + 1/200000 < e) : pyRound x 5 < e :=
  lt_of_le_of_lt (pyRound5_le x) (by linarith)

theorem pyRound5_gt_left (x e : ℚ) (h : e < x - 1/200000) : e < pyRound x 5 :=
  lt_of_lt_of_le (by linarith) (le_pyRound5 x)

theorem stops_BUY_eq (e a : ℚ) :
    calculate_multiple_stop_losses e .BUY a =
      { tight_1atr := ⟨pyRound (e - 1 * a) 5, pyRound (1 * a / e * 100) 2⟩
        standard_2atr := ⟨pyRound (e - 2 * a) 5, pyRound (2 * a / e * 100) 2⟩
        wide_3atr := ⟨pyRound (e - 3 * a) 5, pyRound (3 * a / e * 100) 2⟩
        percentage_2pct := ⟨pyRound (e * 0.98) 5, 2⟩
        percentage_3pct := ⟨pyRound (e * 0.97) 5, 3⟩ } := rfl

theorem stops_SELL_eq (e a : ℚ) :
    calculate_multiple_stop_losses e .SELL a =
      { tight_1atr := ⟨pyRound (e + 1 * a) 5, pyRound (1 * a / e * 100) 2⟩
        standard_2atr := ⟨pyRound (e + 2 * a) 5, pyRound (2 * a / e * 100) 2⟩
        wide_3atr := ⟨pyRound (e + 3 * a) 5, pyRound (3 * a / e * 100) 2⟩
        percentage_2pct := ⟨pyRound (e * 1.02) 5, 2⟩
        percentage_3pct := ⟨pyRound (e * 1.03) 5, 3⟩ } := rfl

theorem tps_BUY_eq (e a : ℚ) :
    calculate_multiple_take_profits e .BUY a =
      { tp1_quick := ⟨pyRound (e + 1 * a) 5, pyRound (1 * a / e * 100) 2, 25⟩
        tp2_conservative := ⟨pyRound (e + 2 * a) 5, pyRound (2 * a / e * 100) 2, 25⟩
        tp3_moderate := ⟨pyRound (e + 3 * a) 5, pyRound (3 * a / e * 100) 2, 25⟩
        tp4_aggressive := ⟨pyRound (e + 5 * a) 5, pyRound (5 * a / e * 100) 2, 25⟩ } := rfl

theorem tps_SELL_eq (e a : ℚ) :
    calculate_multiple_take_profits e .SELL a =
      { tp1_quick := ⟨pyRound (e - 1 * a) 5, pyRound (1 * a / e * 100) 2, 25⟩
        tp2_conservative := ⟨pyRound (e - 2 * a) 5, pyRound (2 * a / e * 100) 2, 25⟩
        tp3_moderate := ⟨pyRound (e - 3 * a) 5, pyRound (3 * a / e * 100) 2, 25⟩
        tp4_aggressive := ⟨pyRound (e - 5 * a) 5, pyRound (5 * a / e * 100) 2, 25⟩ } := rfl

/-- C1 (counterexample): with ATR = 0 — an ATR value the trade-plan
generator can be invoked with, e.g. on a flat market — the BUY stop-loss
ladder's tight stop equals the entry price instead of lying strictly below
it, so the claimed invariant fails as stated for arbitrary ATR values. -/
theorem C1_counterexample :
    ¬ (calculate_multiple_stop_losses 1.1 .BUY 0).tight_1atr.price < 1.1 := by
  rw [stops_BUY_eq]
  norm_num [pyRound, roundHalfEven]

/-- C1 (amended): for every signal in {BUY, SELL}, every entry price of at
least 0.001, and every ATR of at least 0.0001 (one pip) — bounds large
enough that rounding to 5 decimal places cannot cancel the offset — every
price in the stop-loss ladder lies strictly below the entry for BUY and
strictly above it for SELL, and every price in the take-profit ladder lies
strictly above the entry for BUY and strictly below it for SELL. -/
theorem C1_side_invariant (entry atr : ℚ)
    (hentry : 1/1000 ≤ entry) (hatr : 1/10000 ≤ atr) :
    ((calculate_multiple_stop_losses entry .BUY atr).tight_1atr.price < entry ∧
     (calculate_multiple_stop_losses entry .BUY atr).standard_2atr.price < entry ∧
     (calculate_multiple_stop_losses entry .BUY atr).wide_3atr.price < entry ∧
     (calculate_multiple_stop_losses entry .BUY atr).percentage_2pct.price < entry ∧
     (calculate_multiple_stop_losses entry .BUY atr).percentage_3pct.price < entry) ∧
    (entry < (calculate_multiple_take_profits entry .BUY atr).tp1_quick.price ∧
     entry < (calculate_multiple_take_profits entry .BUY atr).tp2_conservative.price ∧
     entry < (calculate_multiple_take_profits entry .BUY atr).tp3_moderate.price ∧
     entry < (calculate_multiple_take_profits entry .BUY atr).tp4_aggressive.price) ∧
    (entry < (calculate_multiple_stop_losses entry .SELL atr).tight_1atr.price ∧
     entry < (calculate_multiple_stop_losses entry .SELL atr).standard_2atr.price ∧
     entry < (calculate_multiple_stop_losses entry .SELL atr).wide_3atr.price ∧
     entry < (calculate_multiple_stop_losses entry .SELL atr).percentage_2pct.price ∧
     entry < (calculate_multiple_stop_losses entry .SELL atr).percentage_3pct.price) ∧
    ((calculate_multiple_take_profits entry .SELL atr).tp1_quick.price < entry ∧
     (calculate_multiple_take_profits entry .SELL atr).tp2_conservative.price < entry ∧
     (calculate_multiple_take_profits entry .SELL atr).tp3_moderate.price < entry ∧
     (calculate_multiple_take_profits entry .SELL atr).tp4_aggressive.price < entry) := by
  rw [stops_BUY_eq, stops_SELL_eq, tps_BUY_eq, tps_SELL_eq]
  exact
    ⟨⟨pyRound5_lt_right _ _ (by linarith), pyRound5_lt_right _ _ (by linarith),
      pyRound5_lt_right _ _ (by linarith), pyRound5_lt_right _ _ (by linarith),
      pyRound5_lt_right _ _ (by linarith)⟩,
     ⟨pyRound5_gt_left _ _ (by linarith), pyRound5_gt_left _ _ (by linarith),
      pyRound5_gt_left _ _ (by linarith), pyRound5_gt_left _ _ (by linarith)⟩,
     ⟨pyRound5_gt_left _ _ (by linarith), pyRound5_gt_left _ _ (by linarith),
      pyRound5_gt_left _ _ (by linarith), pyRound5_gt_left _ _ (by linarith),
      pyRound5_gt_left _ _ (by linarith)⟩,
     ⟨pyRound5_lt_right _ _ (by linarith), pyRound5_lt_right _ _ (by linarith),
      pyRound5_lt_right _ _ (by linarith), pyRound5_lt_right _ _ (by linarith)⟩⟩

/-- C1 (witness): the amended invariant instantiated at entry 1.1,
ATR 0.01. -/
theorem C1_side_invariant_witness :
    (1/1000 : ℚ) ≤ 1.1 ∧ (1/10000 : ℚ) ≤ 0.01 ∧
    (calculate_multiple_stop_losses 1.1 .BUY 0.01).tight_1atr.price < 1.1 :=
  ⟨by norm_num, by norm_num,
    (C1_side_invariant 1.1 0.01 (by norm_num) (by norm_num)).1.1⟩

/-- C8: for a non-degenerate stop (entry ≠ stop), `calculate_position_size`
returns risk_amount = balance × risk fraction, units = risk_amount / |entry
− stop| and lots = units / 100000; at balance 10000, risk 2%, entry 1.10,
stop 1.09 this gives risk 200, 20000 units, 0.2 lots. -/
theorem C8_position_sizing :
    (∀ b r e s cfgr : ℚ, e ≠ s →
      (calculate_position_size b e s (some r) cfgr).risk_amount = some (b * r) ∧
      (calculate_position_size b e s (some r) cfgr).position_size_units =
        some (b * r / |e - s|) ∧
      (calculate_position_size b e s (some r) cfgr).position_size_lots =
        some (b * r / |e - s| / 100000)) ∧
    ((calculate_position_size 10000 1.1 1.09 (some 0.02) 0.02).risk_amount =
      some 200 ∧
     (calculate_position_size 10000 1.1 1.09 (some 0.02) 0.02).position_size_units =
      some 20000 ∧
     (calculate_position_size 10000 1.1 1.09 (some 0.02) 0.02).position_size_lots =
      some 0.2) := by
  constructor
  · intro b r e s cfgr hne
    have h : ¬ |e - s| = 0 := by
      simp [abs_eq_zero, sub_eq_zero, hne]
    simp [calculate_position_size, h]
  · have habs : |(1.1 : ℚ) - 1.09| = 1/100 := by
      rw [show (1.1 : ℚ) - 1.09 = 1/100 by norm_num]
      exact abs_of_pos (by norm_num)
    have h : ¬ |(1.1 : ℚ) - 1.09| = 0 := by rw [habs]; norm_num
    refine ⟨?_, ?_, ?_⟩ <;> simp [calculate_position_size, h, habs] <;> norm_num

/-- C8 (witness): the general sizing law instantiated at the scenario
from the specification. -/
theorem C8_position_sizing_witness :
    (1.1 : ℚ) ≠ 1.09 ∧
    (calculate_position_size 10000 1.1 1.09 (some 0.02) 0.02).risk_amount =
      some (10000 * 0.02) :=
  ⟨by norm_num, (C8_position_sizing.1 10000 0.02 1.1 1.09 0.02 (by norm_num)).1⟩

/-- A two-row frame with a constant market: the `ATR` column exists and its
latest value is 0. -/
def atrZeroFrame : DFrame := ⟨["ATR"], [[("ATR", 0)], [("ATR", 0)]]⟩

/-- C7: when the computed stop equals the entry (ATR 0),
`calculate_position_size` does return the structured error dictionary
(position size 0 with an error field, and no sizing keys), but
`create_trade_plan`, which the claim also covers, then evaluates
`position_info['position_size_lots']` on that dictionary and raises
`KeyError` instead of returning a structured error result. -/
theorem C7_trade_plan_keyerror :
    (calculate_position_size 10000 1.1 1.1 none 0.02).position_size = some 0 ∧
    (calculate_position_size 10000 1.1 1.1 none 0.02).risk_amount = some 0 ∧
    (calculate_position_size 10000 1.1 1.1 none 0.02).error =
      some "Invalid stop loss" ∧
    (calculate_position_size 10000 1.1 1.1 none 0.02).position_size_lots = none ∧
    create_trade_plan .BUY 1.1 0.9 10000 atrZeroFrame {} =
      .error "position_size_lots" := by
  have h0 : |(1.1 : ℚ) - 1.1| = 0 := by norm_num
  refine ⟨?_, ?_, ?_, ?_, ?_⟩
  · simp [calculate_position_size, h0]
  · simp [calculate_position_size, h0]
  · simp [calculate_position_size, h0]
  · simp [calculate_position_size, h0]
  · simp only [create_trade_plan, validate_trade, calculate_stop_loss, atrZeroFrame,
      DFrame.lastVal, calculate_take_profit, calculate_position_size, require]
    norm_num
    rfl

/-! ## Theorems about the consensus aggregator (claims C2, C10) -/

theorem tallyStep_counts (w : List (String × ℚ)) (acc : Tally)
    (e : String × TFAnalysis) :
    (tallyStep w acc e).buy_count + (tallyStep w acc e).sell_count +
      (tallyStep w acc e).hold_count =
    acc.buy_count + acc.sell_count + acc.hold_count + 1 := by
  unfold tallyStep
  rcases hrev : e.2.reversal_detection with _ | rev <;>
    rcases heff : effectiveSignal e.2 <;>
      simp only [hrev, heff] <;> (try split_ifs) <;> (try simp) <;> omega

theorem tally_counts_aux (w : List (String × ℚ)) :
    ∀ (l : List (String × TFAnalysis)) (acc : Tally),
      (l.foldl (tallyStep w) acc).buy_count + (l.foldl (tallyStep w) acc).sell_count +
        (l.foldl (tallyStep w) acc).hold_count =
      acc.buy_count + acc.sell_count + acc.hold_count + l.length := by
  intro l
  induction l with
  | nil => simp
  | cons hd tl ih =>
    intro acc
    rw [List.foldl_cons, ih (tallyStep w acc hd), tallyStep_counts]
    simp
    omega

theorem tally_counts (w : List (String × ℚ)) (l : List (String × TFAnalysis)) :
    (tally w l).buy_count + (tally w l).sell_count + (tally w l).hold_count =
      l.length := by
  have h := tally_counts_aux w l {}
  simpa [tally] using h

theorem gtc_consensus (w : List (String × ℚ)) (m : ℕ)
    (analyses : List (String × TFAnalysis)) (h : ¬ analyses = []) :
    (get_timeframe_consensus w m analyses).consensus =
      (consensusCore (tally w analyses) m).1 := by
  unfold get_timeframe_consensus
  rw [if_neg h]

theorem gtc_agreement (w : List (String × ℚ)) (m : ℕ)
    (analyses : List (String × TFAnalysis)) (h : ¬ analyses = []) :
    (get_timeframe_consensus w m analyses).agreement_count =
      (consensusCore (tally w analyses) m).2.1 := by
  unfold get_timeframe_consensus
  rw [if_neg h]

theorem gtc_total (w : List (String × ℚ)) (m : ℕ)
    (analyses : List (String × TFAnalysis)) (h : ¬ analyses = []) :
    (get_timeframe_consensus w m analyses).total_timeframes = analyses.length := by
  unfold get_timeframe_consensus
  rw [if_neg h]

theorem gtc_buy_tf (w : List (String × ℚ)) (m : ℕ)
    (analyses : List (String × TFAnalysis)) (h : ¬ analyses = []) :
    (get_timeframe_consensus w m analyses).buy_timeframes =
      some (tally w analyses).buy_count := by
  unfold get_timeframe_consensus
  rw [if_neg h]

theorem gtc_sell_tf (w : List (String × ℚ)) (m : ℕ)
    (analyses : List (String × TFAnalysis)) (h : ¬ analyses = []) :
    (get_timeframe_consensus w m analyses).sell_timeframes =
      some (tally w analyses).sell_count := by
  unfold get_timeframe_consensus
  rw [if_neg h]

theorem gtc_hold_tf (w : List (String × ℚ)) (m : ℕ)
    (analyses : List (String × TFAnalysis)) (h : ¬ analyses = []) :
    (get_timeframe_consensus w m analyses).hold_timeframes =
      some (tally w analyses).hold_count := by
  unfold get_timeframe_consensus
  rw [if_neg h]

/-- C2: `get_timeframe_consensus` returns BUY exactly when the weighted-BUY
total strictly exceeds the weighted-SELL total and the raw BUY count meets
the configured minimum-agreement count; SELL is the mirror; in every other
case (in particular whenever the raw count of the weighted-total winner is
below the minimum) it returns HOLD. -/
theorem C2_consensus_gating (weights : List (String × ℚ)) (m : ℕ)
    (analyses : List (String × TFAnalysis)) :
    ((get_timeframe_consensus weights m analyses).consensus = .BUY ↔
      (tally weights analyses).weighted_sell < (tally weights analyses).weighted_buy ∧
        m ≤ (tally weights analyses).buy_count) ∧
    ((get_timeframe_consensus weights m analyses).consensus = .SELL ↔
      (tally weights analyses).weighted_buy < (tally weights analyses).weighted_sell ∧
        m ≤ (tally weights analyses).sell_count) ∧
    ((get_timeframe_consensus weights m analyses).consensus = .HOLD ↔
      ¬((tally weights analyses).weighted_sell < (tally weights analyses).weighted_buy ∧
          m ≤ (tally weights analyses).buy_count) ∧
      ¬((tally weights analyses).weighted_buy < (tally weights analyses).weighted_sell ∧
          m ≤ (tally weights analyses).sell_count)) := by
  by_cases h : analyses = []
  · subst h
    simp [get_timeframe_consensus, tally]
  · rw [gtc_consensus weights m analyses h]
    unfold consensusCore
    split_ifs with h1 h2
    · refine ⟨by simp [h1.1, h1.2], ?_, ?_⟩
      · simp only [false_iff]
        rintro ⟨a, -⟩
        exact absurd h1.1 (asymm a)
      · simp only [false_iff]
        intro hc
        exact hc.1 ⟨h1.1, h1.2⟩
    · refine ⟨?_, by simp [h2.1, h2.2], ?_⟩
      · simp only [false_iff]
        rintro ⟨a, -⟩
        exact absurd h2.1 (asymm a)
      · simp only [false_iff]
        intro hc
        exact hc.2 ⟨h2.1, h2.2⟩
    · refine ⟨?_, ?_, ?_⟩
      · simp only [false_iff]
        exact h1
      · simp only [false_iff]
        exact h2
      · constructor
        · intro _
          exact ⟨h1, h2⟩
        · intro _
          rfl

/-- C10: on a non-empty analyses map the consensus result's BUY/SELL/HOLD
timeframe counts sum to the total number of timeframes, and the
agreement_count equals one of the three counts, hence never exceeds the
total. -/
theorem C10_count_invariant (weights : List (String × ℚ)) (m : ℕ)
    (analyses : List (String × TFAnalysis)) (h : analyses ≠ []) :
    ((get_timeframe_consensus weights m analyses).buy_timeframes.getD 0) +
      ((get_timeframe_consensus weights m analyses).sell_timeframes.getD 0) +
      ((get_timeframe_consensus weights m analyses).hold_timeframes.getD 0) =
      (get_timeframe_consensus weights m analyses).total_timeframes ∧
    ((get_timeframe_consensus weights m analyses).agreement_count =
        (get_timeframe_consensus weights m analyses).buy_timeframes.getD 0 ∨
     (get_timeframe_consensus weights m analyses).agreement_count =
        (get_timeframe_consensus weights m analyses).sell_timeframes.getD 0 ∨
     (get_timeframe_consensus weights m analyses).agreement_count =
        (get_timeframe_consensus weights m analyses).hold_timeframes.getD 0) ∧
    (get_timeframe_consensus weights m analyses).agreement_count ≤
      (get_timeframe_consensus weights m analyses).total_timeframes := by
  have hc := tally_counts weights analyses
  rw [gtc_agreement weights m analyses h, gtc_total weights m analyses h,
    gtc_buy_tf weights m analyses h, gtc_sell_tf weights m analyses h,
    gtc_hold_tf weights m analyses h]
  unfold consensusCore
  split_ifs with h1 h2 <;> simp <;> omega

/-- C10 (witness): the invariant at a concrete singleton analyses map. -/
theorem C10_count_invariant_witness :
    ([("1d", ({ enhanced_signal := some .BUY } : TFAnalysis))] :
        List (String × TFAnalysis)) ≠ [] ∧
    (get_timeframe_consensus [("1d", 0.4)] 3
        [("1d", { enhanced_signal := some .BUY })]).agreement_count ≤
      (get_timeframe_consensus [("1d", 0.4)] 3
        [("1d", { enhanced_signal := some .BUY })]).total_timeframes :=
  ⟨by simp,
    (C10_count_invariant [("1d", 0.4)] 3
      [("1d", { enhanced_signal := some .BUY })] (by simp)).2.2⟩

/-! ## Theorems about the ensemble voter (claim C3) -/

/-- C3: `EnsembleVoting.vote` returns BUY (resp. SELL) only when that
side's weighted score strictly exceeds both the other side's score and
0.5, and returns HOLD whenever both scores are at most 0.5 — even if one
strictly exceeds the other. -/
theorem C3_vote_gating (ts : List (String × Sig)) (ml : MLPred) (w : VoteWeights) :
    ((vote ts ml w).signal = .BUY →
      (voteScores ts ml w).2 < (voteScores ts ml w).1 ∧
        (0.5 : ℚ) < (voteScores ts ml w).1) ∧
    ((vote ts ml w).signal = .SELL →
      (voteScores ts ml w).1 < (voteScores ts ml w).2 ∧
        (0.5 : ℚ) < (voteScores ts ml w).2) ∧
    ((voteScores ts ml w).1 ≤ 0.5 → (voteScores ts ml w).2 ≤ 0.5 →
      (vote ts ml w).signal = .HOLD) := by
  have hv : (vote ts ml w).signal =
      (voteFinal (voteScores ts ml w).1 (voteScores ts ml w).2).1 := rfl
  rw [hv]
  unfold voteFinal
  split_ifs with h1 h2
  · exact ⟨fun _ => ⟨h1.1, h1.2⟩, fun hf => hf.elim,
      fun hle _ => absurd h1.2 (not_lt.mpr hle)⟩
  · exact ⟨fun hf => hf.elim, fun _ => ⟨h2.1, h2.2⟩,
      fun _ hle => absurd h2.2 (not_lt.mpr hle)⟩
  · exact ⟨fun hf => hf.elim, fun hf => hf.elim, fun _ _ => rfl⟩

/-- C3 (witness): one technical BUY vote against a SELL classifier at
confidence 0.4 with the default 0.5/0.5 weights gives buy score 0.5 and
sell score 0.2 — buy strictly exceeds sell, yet both are ≤ 0.5, so the
final signal is HOLD. -/
theorem C3_vote_gating_witness :
    (vote [("rsi", Sig.BUY)] ⟨.SELL, 0.4⟩ {}).signal = .HOLD :=
  (C3_vote_gating [("rsi", Sig.BUY)] ⟨.SELL, 0.4⟩ {}).2.2
    (by simp [voteScores, techConsensus])
    (by simp [voteScores, techConsensus]; norm_num)

/-! ## Theorems about the indicator rules (claim C6) -/

theorem except_bind_ok (v : α) (f : α → Except String β) :
    (Except.ok v : Except String α) >>= f = f v := rfl

/-- A frame that has two rows of history and a `MACD` column but no
`MACD_Signal` column. -/
def macdOnlyFrame : DFrame := ⟨["MACD"], [[("MACD", 0)], [("MACD", 1)]]⟩

/-- C6 (counterexample): on a frame with two rows whose `MACD` column is
present but whose `MACD_Signal` column — a required indicator column of the
MACD rule — is absent, `macd_signal` raises `KeyError('MACD_Signal')`
instead of returning HOLD, contradicting both halves of the claim. -/
theorem C6_counterexample :
    macd_signal macdOnlyFrame = .error "MACD_Signal" ∧
    macd_signal macdOnlyFrame ≠ .ok .HOLD := by
  have h : macd_signal macdOnlyFrame = .error "MACD_Signal" := rfl
  exact ⟨h, by rw [h]; exact fun hh => Except.noConfusion hh⟩

/-- C6 (amended): each rule returns HOLD when the frame has fewer than two
rows or the column the source checks is absent ("MA_fast"/"MA_slow" for the
MA rule, "EMA_fast"/"EMA_slow" for EMA, "RSI", "MACD", "Stoch_K"); and each
rule returns a signal without raising provided the further columns it reads
without checking are present ("Close" for the MA/EMA rules, "MACD_Signal"
and "MACD_Hist" for MACD, "Stoch_D" for stochastic; the RSI rule reads only
checked columns and never raises). -/
theorem C6_rules_guarded (df : DFrame) (fast slow : ℕ) (ob os ob2 os2 : ℚ) :
    (df.nrows < 2 ∨ ("MA_" ++ toString fast) ∉ df.cols ∨
        ("MA_" ++ toString slow) ∉ df.cols →
      ma_crossover_signal df fast slow = .ok .HOLD) ∧
    (df.nrows < 2 ∨ ("EMA_" ++ toString fast) ∉ df.cols ∨
        ("EMA_" ++ toString slow) ∉ df.cols →
      ema_crossover_signal df fast slow = .ok .HOLD) ∧
    ("RSI" ∉ df.cols ∨ df.nrows < 2 → rsi_signal df ob os = .ok .HOLD) ∧
    ("MACD" ∉ df.cols ∨ df.nrows < 2 → macd_signal df = .ok .HOLD) ∧
    ("Stoch_K" ∉ df.cols ∨ df.nrows < 2 →
      stochastic_signal df ob2 os2 = .ok .HOLD) ∧
    ("Close" ∈ df.cols → ruleOk (ma_crossover_signal df fast slow) = true) ∧
    ("Close" ∈ df.cols → ruleOk (ema_crossover_signal df fast slow) = true) ∧
    ruleOk (rsi_signal df ob os) = true ∧
    ("MACD_Signal" ∈ df.cols → "MACD_Hist" ∈ df.cols →
      ruleOk (macd_signal df) = true) ∧
    ("Stoch_D" ∈ df.cols → ruleOk (stochastic_signal df ob2 os2) = true) := by
  refine ⟨?_, ?_, ?_, ?_, ?_, ?_, ?_, ?_, ?_, ?_⟩
  · intro hyp
    unfold ma_crossover_signal
    rcases hyp with h | h
    · rw [if_pos h]
    · by_cases h2 : df.nrows < 2
      · rw [if_pos h2]
      · rw [if_neg h2, if_pos h]
  · intro hyp
    unfold ema_crossover_signal
    rcases hyp with h | h
    · rw [if_pos h]
    · by_cases h2 : df.nrows < 2
      · rw [if_pos h2]
      · rw [if_neg h2, if_pos h]
  · intro hyp
    unfold rsi_signal
    rw [if_pos hyp]
  · intro hyp
    unfold macd_signal
    rw [if_pos hyp]
  · intro hyp
    unfold stochastic_signal
    rw [if_pos hyp]
  · intro hClose
    unfold ma_crossover_signal
    by_cases h2 : df.nrows < 2
    · rw [if_pos h2]; rfl
    · rw [if_neg h2]
      by_cases h3 : ("MA_" ++ toString fast) ∉ df.cols ∨
          ("MA_" ++ toString slow) ∉ df.cols
      · rw [if_pos h3]; rfl
      · rw [if_neg h3]
        rw [not_or, not_not, not_not] at h3
        simp only [DFrame.colVal, if_pos h3.1, if_pos h3.2, if_pos hClose,
          except_bind_ok]
        split_ifs <;> rfl
  · intro hClose
    unfold ema_crossover_signal
    by_cases h2 : df.nrows < 2
    · rw [if_pos h2]; rfl
    · rw [if_neg h2]
      by_cases h3 : ("EMA_" ++ toString fast) ∉ df.cols ∨
          ("EMA_" ++ toString slow) ∉ df.cols
      · rw [if_pos h3]; rfl
      · rw [if_neg h3]
        rw [not_or, not_not, not_not] at h3
        simp only [DFrame.colVal, if_pos h3.1, if_pos h3.2, if_pos hClose,
          except_bind_ok]
        split_ifs <;> rfl
  · unfold rsi_signal
    by_cases hg : "RSI" ∉ df.cols ∨ df.nrows < 2
    · rw [if_pos hg]; rfl
    · rw [if_neg hg]
      rw [not_or, not_not] at hg
      simp only [DFrame.colVal, if_pos hg.1, except_bind_ok]
      split_ifs <;> rfl
  · intro hSig hHist
    unfold macd_signal
    by_cases hg : "MACD" ∉ df.cols ∨ df.nrows < 2
    · rw [if_pos hg]; rfl
    · rw [if_neg hg]
      rw [not_or, not_not] at hg
      simp only [DFrame.colVal, if_pos hg.1, if_pos hSig, if_pos hHist,
        except_bind_ok]
      split_ifs <;> rfl
  · intro hD
    unfold stochastic_signal
    by_cases hg : "Stoch_K" ∉ df.cols ∨ df.nrows < 2
    · rw [if_pos hg]; rfl
    · rw [if_neg hg]
      rw [not_or, not_not] at hg
      simp only [DFrame.colVal, if_pos hg.1, if_pos hD, except_bind_ok]
      split_ifs <;> rfl

/-- C6 (witness): on an empty frame every rule returns HOLD; on a frame
carrying only checked columns the RSI rule still returns a signal without
raising. -/
theorem C6_rules_guarded_witness :
    ma_crossover_signal ⟨[], []⟩ 20 50 = .ok .HOLD ∧
    macd_signal ⟨[], []⟩ = .ok .HOLD ∧
    ruleOk (rsi_signal ⟨[], []⟩ 70 30) = true :=
  ⟨(C6_rules_guarded ⟨[], []⟩ 20 50 70 30 80 20).1 (Or.inl (by decide)),
   (C6_rules_guarded ⟨[], []⟩ 20 50 70 30 80 20).2.2.2.1 (Or.inr (by decide)),
   (C6_rules_guarded ⟨[], []⟩ 20 50 70 30 80 20).2.2.2.2.2.2.2.1⟩

/-! ## Theorems about reversal detection (claim C4) -/

theorem detect_reversal_main (df : List Candle) (r h : ℕ)
    (hg : ¬ df.length < h + r) :
    detect_reversal df r h =
      { is_reversal := (reversalHit
            (calculate_trend_momentum (ilocHistorical df h r) h)
            (calculate_trend_momentum (ilocTail df r) r)).1
        reversal_strength := (reversalHit
            (calculate_trend_momentum (ilocHistorical df h r) h)
            (calculate_trend_momentum (ilocTail df r) r)).2.2.1
        reversal_type := (reversalHit
            (calculate_trend_momentum (ilocHistorical df h r) h)
            (calculate_trend_momentum (ilocTail df r) r)).2.1
        previous_trend := (calculate_trend_momentum (ilocHistorical df h r) h).direction
        previous_trend_strength :=
          some (calculate_trend_momentum (ilocHistorical df h r) h).momentum_score
        recent_trend := some (calculate_trend_momentum (ilocTail df r) r).direction
        recent_trend_strength :=
          some (calculate_trend_momentum (ilocTail df r) r).momentum_score
        warning_level := (reversalHit
            (calculate_trend_momentum (ilocHistorical df h r) h)
            (calculate_trend_momentum (ilocTail df r) r)).2.2.2
        historical_momentum := some (calculate_trend_momentum (ilocHistorical df h r) h)
        recent_momentum := some (calculate_trend_momentum (ilocTail df r) r) } := by
  unfold detect_reversal
  rw [if_neg hg]

/-- C4: `detect_reversal` reports a reversal only if the historical
segment's momentum_score exceeds 0.6 and the recent segment's direction is
the strict opposite of the historical one; it never reports a reversal when
the two directions agree; and whenever it reports one, reversal_strength
equals the recent segment's consistency. -/
theorem C4_reversal_gating (df : List Candle) (r h : ℕ) :
    ((detect_reversal df r h).is_reversal = true →
      (0.6 : ℚ) < (detect_reversal df r h).previous_trend_strength.getD 0 ∧
      (((detect_reversal df r h).previous_trend = .BULLISH ∧
          (detect_reversal df r h).recent_trend.getD .NEUTRAL = .BEARISH) ∨
        ((detect_reversal df r h).previous_trend = .BEARISH ∧
          (detect_reversal df r h).recent_trend.getD .NEUTRAL = .BULLISH)) ∧
      (detect_reversal df r h).reversal_strength =
        ((detect_reversal df r h).recent_momentum.getD
          { direction := .NEUTRAL, strength := 0, consistency := 0,
            momentum_score := 0 }).consistency) ∧
    ((detect_reversal df r h).previous_trend =
        (detect_reversal df r h).recent_trend.getD .NEUTRAL →
      (detect_reversal df r h).is_reversal = false) := by
  by_cases hg : df.length < h + r
  · refine ⟨fun hrev => ?_, fun _ => ?_⟩
    · exfalso
      unfold detect_reversal at hrev
      rw [if_pos hg] at hrev
      exact Bool.false_ne_true hrev
    · unfold detect_reversal
      rw [if_pos hg]
  · rw [detect_reversal_main df r h hg]
    simp only [Option.getD_some]
    unfold reversalHit
    split_ifs with h1 h2 h3
    · exact ⟨fun _ => ⟨h1, Or.inl h2, rfl⟩,
        fun hm => absurd ((h2.1.symm.trans hm).trans h2.2)
          (by decide)⟩
    · exact ⟨fun _ => ⟨h1, Or.inr h3, rfl⟩,
        fun hm => absurd ((h3.1.symm.trans hm).trans h3.2)
          (by decide)⟩
    · exact ⟨fun hf => hf.elim, fun _ => rfl⟩
    · exact ⟨fun hf => hf.elim, fun _ => rfl⟩

/-! ## Theorems about the weighted signal (claim C5) -/

/-- A momentum input with a strong bullish history, parameterized by its
momentum_score. -/
def bullMomentum (m : ℚ) : TrendMomentum :=
  { direction := .BULLISH, strength := 1, consistency := 1, momentum_score := m }

/-- A maximal bullish-to-bearish reversal input. -/
def strongReversal : RevResult :=
  { is_reversal := true
    reversal_strength := 1
    reversal_type := .BULLISH_TO_BEARISH
    previous_trend := .BULLISH
    warning_level := .HIGH }

/-- C5 (counterexample): with weight configuration (0.05, 0.05, 0.9)
(summing to 1.0) and a strong opposing reversal, raising momentum_score
from 0 to 1 — with momentum direction BULLISH agreeing with the BUY
current signal and everything else fixed — moves the blended score from
−0.85 to −0.8, so the returned confidence falls from 0.85 to 0.8. -/
theorem C5_counterexample :
    (calculate_weighted_signal .BUY (bullMomentum 1) strongReversal
        (1/20) (1/20) (9/10)).confidence <
      (calculate_weighted_signal .BUY (bullMomentum 0) strongReversal
        (1/20) (1/20) (9/10)).confidence := by
  have h1 : (calculate_weighted_signal .BUY (bullMomentum 1) strongReversal
      (1/20) (1/20) (9/10)).confidence = min |(-(4/5) : ℚ)| 1 := by
    unfold calculate_weighted_signal bullMomentum strongReversal
    norm_num
  have h0 : (calculate_weighted_signal .BUY (bullMomentum 0) strongReversal
      (1/20) (1/20) (9/10)).confidence = min |(-(17/20) : ℚ)| 1 := by
    unfold calculate_weighted_signal bullMomentum strongReversal
    norm_num
  rw [h1, h0, abs_of_neg (by norm_num : (-(4/5) : ℚ) < 0),
    abs_of_neg (by norm_num : (-(17/20) : ℚ) < 0)]
  norm_num

/-- C5 (amended): the claimed monotonicity holds under the additional
hypotheses that the weights are nonnegative, momentum scores are
nonnegative, and reversal_weight × |reversal_strength| ≤ current_weight
(true in particular for the default weights 0.4/0.4/0.2 and any
reversal_strength in [0, 1]): then, when the momentum direction agrees
with the current signal, increasing momentum_score cannot decrease the
returned confidence. -/
theorem C5_confidence_monotone (sig : Sig) (dir : Direction)
    (hagree : (sig = .BUY ∧ dir = .BULLISH) ∨ (sig = .SELL ∧ dir = .BEARISH))
    (base : TrendMomentum) (rev : RevResult) (wc wm wr : ℚ)
    (hwc : 0 ≤ wc) (hwm : 0 ≤ wm) (hwr : 0 ≤ wr)
    (hdom : wr * |rev.reversal_strength| ≤ wc)
    (m1 m2 : ℚ) (hm1 : 0 ≤ m1) (hm12 : m1 ≤ m2) :
    (calculate_weighted_signal sig
        { base with direction := dir, momentum_score := m1 } rev wc wm wr).confidence ≤
      (calculate_weighted_signal sig
        { base with direction := dir, momentum_score := m2 } rev wc wm wr).confidence := by
  have hub : ∀ s : ℚ, s = rev.reversal_strength ∨ s = -rev.reversal_strength ∨ s = 0 →
      -|rev.reversal_strength| ≤ s ∧ s ≤ |rev.reversal_strength| := by
    rintro s (rfl | rfl | rfl)
    · exact ⟨neg_abs_le _, le_abs_self _⟩
    · exact ⟨neg_le_neg (le_abs_self _), neg_le_abs _⟩
    · exact ⟨neg_nonpos_of_nonneg (abs_nonneg _), abs_nonneg _⟩
  rcases hagree with ⟨hs, hd⟩ | ⟨hs, hd⟩ <;> subst hs <;> subst hd <;>
    unfold calculate_weighted_signal <;> dsimp only
  · -- BUY with BULLISH momentum
    have key : ∀ rr : ℚ, -|rev.reversal_strength| ≤ rr →
        min |1 * wc + m1 * wm + rr * wr| 1 ≤ min |1 * wc + m2 * wm + rr * wr| 1 := by
      intro rr hlb
      have h3 : -|rev.reversal_strength| * wr ≤ rr * wr :=
        mul_le_mul_of_nonneg_right hlb hwr
      have h4 : 0 ≤ 1 * wc + m1 * wm + rr * wr := by
        nlinarith [mul_nonneg hwm hm1]
      have h5 : 1 * wc + m1 * wm + rr * wr ≤ 1 * wc + m2 * wm + rr * wr := by
        nlinarith [mul_le_mul_of_nonneg_right hm12 hwm]
      rw [abs_of_nonneg h4, abs_of_nonneg (le_trans h4 h5)]
      exact min_le_min h5 le_rfl
    split_ifs with hrev
    · cases htype : rev.reversal_type <;> simp only [htype]
      · exact key 0 (hub 0 (Or.inr (Or.inr rfl))).1
      · exact key (-rev.reversal_strength) (hub _ (Or.inr (Or.inl rfl))).1
      · exact key rev.reversal_strength (hub _ (Or.inl rfl)).1
    · exact key 0 (hub 0 (Or.inr (Or.inr rfl))).1
  · -- SELL with BEARISH momentum
    have key : ∀ rr : ℚ, rr ≤ |rev.reversal_strength| →
        min |(-1) * wc + -m1 * wm + rr * wr| 1 ≤
          min |(-1) * wc + -m2 * wm + rr * wr| 1 := by
      intro rr hup
      have h3 : rr * wr ≤ |rev.reversal_strength| * wr :=
        mul_le_mul_of_nonneg_right hup hwr
      have h4 : (-1) * wc + -m1 * wm + rr * wr ≤ 0 := by
        nlinarith [mul_nonneg hwm hm1]
      have h5 : (-1) * wc + -m2 * wm + rr * wr ≤ (-1) * wc + -m1 * wm + rr * wr := by
        nlinarith [mul_le_mul_of_nonneg_right hm12 hwm]
      rw [abs_of_nonpos h4, abs_of_nonpos (le_trans h5 h4)]
      exact min_le_min (neg_le_neg h5) le_rfl
    split_ifs with hrev
    · cases htype : rev.reversal_type <;> simp only [htype]
      · exact key 0 (hub 0 (Or.inr (Or.inr rfl))).2
      · exact key (-rev.reversal_strength) (hub _ (Or.inr (Or.inl rfl))).2
      · exact key rev.reversal_strength (hub _ (Or.inl rfl)).2
    · exact key 0 (hub 0 (Or.inr (Or.inr rfl))).2

/-- C5 (witness): the amended monotonicity at the default weights
0.4/0.4/0.2 with no reversal, BUY signal, BULLISH momentum, scores 0 and
1/2. -/
theorem C5_confidence_monotone_witness :
    (calculate_weighted_signal .BUY
        { bullMomentum 0 with direction := .BULLISH, momentum_score := 0 }
        { is_reversal := false, reversal_strength := 0, reversal_type := .NONE,
          previous_trend := .NEUTRAL, warning_level := .LOW }
        0.4 0.4 0.2).confidence ≤
      (calculate_weighted_signal .BUY
        { bullMomentum 0 with direction := .BULLISH, momentum_score := 1/2 }
        { is_reversal := false, reversal_strength := 0, reversal_type := .NONE,
          previous_trend := .NEUTRAL, warning_level := .LOW }
        0.4 0.4 0.2).confidence :=
  C5_confidence_monotone .BUY .BULLISH (Or.inl ⟨rfl, rfl⟩) (bullMomentum 0)
    { is_reversal := false, reversal_strength := 0, reversal_type := .NONE,
      previous_trend := .NEUTRAL, warning_level := .LOW }
    0.4 0.4 0.2 (by norm_num) (by norm_num) (by norm_num)
    (by simp; norm_num) 0 (1/2) (by norm_num) (by norm_num)

/-! ## Theorems about trend momentum (claim C9) -/

theorem ctm_direction (df : List Candle) (lb : ℕ) (hg : ¬ df.length < lb) :
    (calculate_trend_momentum df lb).direction =
      (directionStrength ((ilocTail df lb).countP (fun c => c.Close > c.Open))
        ((ilocTail df lb).countP (fun c => c.Close < c.Open))
        (ilocTail df lb).length).1 := by
  unfold calculate_trend_momentum
  rw [if_neg hg]

theorem ctm_momentum_score (df : List Candle) (lb : ℕ) (hg : ¬ df.length < lb) :
    (calculate_trend_momentum df lb).momentum_score =
      min ((max ((ilocTail df lb).countP (fun c => c.Close > c.Open) : ℚ)
              ((ilocTail df lb).countP (fun c => c.Close < c.Open) : ℚ)) /
            ((ilocTail df lb).length : ℚ) * 0.3 +
          |(((ilocTail df lb).map Candle.Close).getLast?.getD 0 -
              ((ilocTail df lb).map Candle.Close).head?.getD 0) /
            ((ilocTail df lb).map Candle.Close).head?.getD 0 * 100| / 10 * 0.3 +
          (directionStrength ((ilocTail df lb).countP (fun c => c.Close > c.Open))
            ((ilocTail df lb).countP (fun c => c.Close < c.Open))
            (ilocTail df lb).length).2 * 0.2 +
          ((if (directionStrength ((ilocTail df lb).countP (fun c => c.Close > c.Open))
                  ((ilocTail df lb).countP (fun c => c.Close < c.Open))
                  (ilocTail df lb).length).1 = .BULLISH then
              countAdjacent (fun a b => b > a) ((ilocTail df lb).map Candle.High)
            else
              countAdjacent (fun a b => b < a) ((ilocTail df lb).map Candle.Low) : ℕ) : ℚ) /
            (((ilocTail df lb).length - 1 : ℕ) : ℚ) * 0.2) 1 := by
  unfold calculate_trend_momentum
  rw [if_neg hg]

theorem countAdjacent_of_chain (p : ℚ → ℚ → Bool) (l : List ℚ)
    (h : List.Chain' (fun a b => p a b = true) l) :
    countAdjacent p l = l.length - 1 := by
  induction l with
  | nil => rfl
  | cons a t ih =>
    cases t with
    | nil => rfl
    | cons b t2 =>
      rw [List.chain'_cons] at h
      simp only [countAdjacent]
      rw [if_pos h.1, ih h.2]
      simp only [List.length_cons]
      omega

/-- C9 (amended): for a 20-candle window in which every candle is bullish,
closes strictly increase step by step, each high strictly exceeds the
previous high, and the window's percentage price change exceeds 10/3
percent, `calculate_trend_momentum` with lookback 20 returns direction
BULLISH and momentum_score strictly greater than 0.8.  (The original claim
omits the high-pattern and price-change conditions; without them the score
can be as low as about 0.5.) -/
theorem C9_strong_bullish_window (df : List Candle)
    (hlen : df.length = 20)
    (hchain : List.Chain' (fun a b : Candle => a.Close < b.Close) df)
    (hbull : ∀ c ∈ df, c.Open < c.Close)
    (hhigh : List.Chain' (fun a b : Candle => a.High < b.High) df)
    (hpct : (10/3 : ℚ) <
      ((df.map Candle.Close).getLast?.getD 0 -
          (df.map Candle.Close).head?.getD 0) /
        (df.map Candle.Close).head?.getD 0 * 100) :
    (calculate_trend_momentum df 20).direction = .BULLISH ∧
      (0.8 : ℚ) < (calculate_trend_momentum df 20).momentum_score := by
  have hg : ¬ df.length < 20 := by omega
  have htail : ilocTail df 20 = df := by
    unfold ilocTail
    rw [if_neg (by norm_num : (20:ℕ) ≠ 0), hlen]
    simp
  have hbc : df.countP (fun c => c.Close > c.Open) = 20 := by
    rw [← hlen]
    refine List.countP_eq_length.mpr ?_
    intro a ha
    simpa using hbull a ha
  have hsc : df.countP (fun c => c.Close < c.Open) = 0 := by
    refine List.countP_eq_zero.mpr ?_
    intro a ha
    simpa using le_of_lt (hbull a ha)
  have hh' : List.Chain' (fun x y : ℚ => decide (y > x) = true)
      (df.map Candle.High) := by
    rw [List.chain'_map]
    exact List.Chain'.imp (fun a b hab => decide_eq_true hab) hhigh
  have hhh : countAdjacent (fun a b => b > a) (df.map Candle.High) = 19 := by
    rw [countAdjacent_of_chain _ _ hh', List.length_map, hlen]
  have hdir : directionStrength 20 0 20 = (Direction.BULLISH, 1) := by
    unfold directionStrength
    norm_num
  constructor
  · rw [ctm_direction df 20 hg, htail, hbc, hsc, hlen, hdir]
  · rw [ctm_momentum_score df 20 hg, htail, hbc, hsc, hlen, hdir, hhh]
    set pm : ℚ := ((df.map Candle.Close).getLast?.getD 0 -
        (df.map Candle.Close).head?.getD 0) /
      (df.map Candle.Close).head?.getD 0 * 100 with hpmdef
    rw [abs_of_pos (by linarith : (0:ℚ) < pm)]
    dsimp only
    rw [if_pos rfl]
    refine lt_min ?_ (by norm_num)
    push_cast
    norm_num
    linarith

/-- Twenty strongly bullish candles: opens 1..20, closes 2..21 (strictly
increasing), highs 3..22 (strictly increasing). -/
def strongBullCandles : List Candle :=
  [⟨1, 3, 0, 2, 1⟩,
   ⟨2, 4, 0, 3, 1⟩,
   ⟨3, 5, 0, 4, 1⟩,
   ⟨4, 6, 0, 5, 1⟩,
   ⟨5, 7, 0, 6, 1⟩,
   ⟨6, 8, 0, 7, 1⟩,
   ⟨7, 9, 0, 8, 1⟩,
   ⟨8, 10, 0, 9, 1⟩,
   ⟨9, 11, 0, 10, 1⟩,
   ⟨10, 12, 0, 11, 1⟩,
   ⟨11, 13, 0, 12, 1⟩,
   ⟨12, 14, 0, 13, 1⟩,
   ⟨13, 15, 0, 14, 1⟩,
   ⟨14, 16, 0, 15, 1⟩,
   ⟨15, 17, 0, 16, 1⟩,
   ⟨16, 18, 0, 17, 1⟩,
   ⟨17, 19, 0, 18, 1⟩,
   ⟨18, 20, 0, 19, 1⟩,
   ⟨19, 21, 0, 20, 1⟩,
   ⟨20, 22, 0, 21, 1⟩]

/-- Five strongly bearish candles following the bullish run. -/
def bearFiveCandles : List Candle :=
  [⟨30, 31, 0, 25, 1⟩,
   ⟨30, 31, 0, 24, 1⟩,
   ⟨30, 31, 0, 23, 1⟩,
   ⟨30, 31, 0, 22, 1⟩,
   ⟨30, 31, 0, 21, 1⟩]

/-- Twenty bullish candles with constant highs and a near-flat close path:
closes increase by one millionth per candle. -/
def flatHighCandles : List Candle :=
  [⟨1, 5, 0, 1000001/1000000, 1⟩,
   ⟨1, 5, 0, 1000002/1000000, 1⟩,
   ⟨1, 5, 0, 1000003/1000000, 1⟩,
   ⟨1, 5, 0, 1000004/1000000, 1⟩,
   ⟨1, 5, 0, 1000005/1000000, 1⟩,
   ⟨1, 5, 0, 1000006/1000000, 1⟩,
   ⟨1, 5, 0, 1000007/1000000, 1⟩,
   ⟨1, 5, 0, 1000008/1000000, 1⟩,
   ⟨1, 5, 0, 1000009/1000000, 1⟩,
   ⟨1, 5, 0, 1000010/1000000, 1⟩,
   ⟨1, 5, 0, 1000011/1000000, 1⟩,
   ⟨1, 5, 0, 1000012/1000000, 1⟩,
   ⟨1, 5, 0, 1000013/1000000, 1⟩,
   ⟨1, 5, 0, 1000014/1000000, 1⟩,
   ⟨1, 5, 0, 1000015/1000000, 1⟩,
   ⟨1, 5, 0, 1000016/1000000, 1⟩,
   ⟨1, 5, 0, 1000017/1000000, 1⟩,
   ⟨1, 5, 0, 1000018/1000000, 1⟩,
   ⟨1, 5, 0, 1000019/1000000, 1⟩,
   ⟨1, 5, 0, 1000020/1000000, 1⟩]

/-- C9 (counterexample): the twenty flat-high candles satisfy the claim's
premises — closes strictly increase at every step and all 20 candles are
bullish — and `calculate_trend_momentum` does return direction BULLISH,
but its momentum_score is about 0.5, not greater than 0.8. -/
theorem C9_counterexample :
    flatHighCandles.length = 20 ∧
    List.Chain' (fun a b : Candle => a.Close < b.Close) flatHighCandles ∧
    (∀ c ∈ flatHighCandles, c.Open < c.Close) ∧
    (calculate_trend_momentum flatHighCandles 20).direction = .BULLISH ∧
    ¬ (0.8 : ℚ) < (calculate_trend_momentum flatHighCandles 20).momentum_score := by
  have hg : ¬ flatHighCandles.length < 20 := by decide
  have htail : ilocTail flatHighCandles 20 = flatHighCandles := rfl
  have hbc : flatHighCandles.countP (fun c => c.Close > c.Open) = 20 := by
    norm_num [flatHighCandles]
  have hsc : flatHighCandles.countP (fun c => c.Close < c.Open) = 0 := by
    norm_num [flatHighCandles]
  have hdir : directionStrength 20 0 20 = (Direction.BULLISH, 1) := by
    unfold directionStrength
    norm_num
  have hhh : countAdjacent (fun a b => b > a)
      (flatHighCandles.map Candle.High) = 0 := by
    norm_num [flatHighCandles, countAdjacent]
  refine ⟨rfl, ?_, ?_, ?_, ?_⟩
  · norm_num [flatHighCandles, List.chain'_cons]
  · norm_num [flatHighCandles, List.forall_mem_cons]
  · rw [ctm_direction flatHighCandles 20 hg, htail, hbc, hsc,
      show flatHighCandles.length = 20 from rfl, hdir]
  · rw [ctm_momentum_score flatHighCandles 20 hg, htail, hbc, hsc,
      show flatHighCandles.length = 20 from rfl, hdir, hhh,
      show ((flatHighCandles.map Candle.Close).getLast?.getD 0) =
        (1000020/1000000 : ℚ) from rfl,
      show ((flatHighCandles.map Candle.Close).head?.getD 0) =
        (1000001/1000000 : ℚ) from rfl]
    rw [abs_of_pos (by norm_num)]
    dsimp only
    rw [if_pos rfl]
    refine not_lt.mpr (le_trans (min_le_left _ _) ?_)
    norm_num

/-- C9 (witness): the amended scenario at twenty concrete strongly bullish
candles with strictly rising highs and a 950%% price change. -/
theorem C9_strong_bullish_window_witness :
    (calculate_trend_momentum strongBullCandles 20).direction = .BULLISH ∧
      (0.8 : ℚ) < (calculate_trend_momentum strongBullCandles 20).momentum_score :=
  C9_strong_bullish_window strongBullCandles rfl
    (by norm_num [strongBullCandles, List.chain'_cons])
    (by norm_num [strongBullCandles, List.forall_mem_cons])
    (by norm_num [strongBullCandles, List.chain'_cons])
    (by
      rw [show ((strongBullCandles.map Candle.Close).getLast?.getD 0) =
          (21 : ℚ) from rfl,
        show ((strongBullCandles.map Candle.Close).head?.getD 0) =
          (2 : ℚ) from rfl]
      norm_num)

/-- The 25-candle demonstration series: a strong 20-candle bullish run
followed by five sharply bearish candles. -/
def demoCandles : List Candle := strongBullCandles ++ bearFiveCandles

theorem sb_direction :
    (calculate_trend_momentum strongBullCandles 20).direction = .BULLISH := by
  have hg : ¬ strongBullCandles.length < 20 := by decide
  rw [ctm_direction strongBullCandles 20 hg,
    show ilocTail strongBullCandles 20 = strongBullCandles from rfl,
    show strongBullCandles.countP (fun c => c.Close > c.Open) = 20 from by
      norm_num [strongBullCandles],
    show strongBullCandles.countP (fun c => c.Close < c.Open) = 0 from by
      norm_num [strongBullCandles],
    show strongBullCandles.length = 20 from rfl]
  unfold directionStrength
  norm_num

theorem sb_score_gt :
    (0.6 : ℚ) < (calculate_trend_momentum strongBullCandles 20).momentum_score := by
  have hg : ¬ strongBullCandles.length < 20 := by decide
  rw [ctm_momentum_score strongBullCandles 20 hg,
    show ilocTail strongBullCandles 20 = strongBullCandles from rfl,
    show strongBullCandles.countP (fun c => c.Close > c.Open) = 20 from by
      norm_num [strongBullCandles],
    show strongBullCandles.countP (fun c => c.Close < c.Open) = 0 from by
      norm_num [strongBullCandles],
    show strongBullCandles.length = 20 from rfl,
    show directionStrength 20 0 20 = (Direction.BULLISH, 1) from by
      unfold directionStrength; norm_num,
    show countAdjacent (fun a b => b > a)
        (strongBullCandles.map Candle.High) = 19 from by
      norm_num [strongBullCandles, countAdjacent],
    show ((strongBullCandles.map Candle.Close).getLast?.getD 0) = (21 : ℚ) from rfl,
    show ((strongBullCandles.map Candle.Close).head?.getD 0) = (2 : ℚ) from rfl]
  rw [abs_of_pos (by norm_num)]
  dsimp only
  rw [if_pos rfl]
  refine lt_min ?_ (by norm_num)
  norm_num

theorem bf_direction :
    (calculate_trend_momentum bearFiveCandles 5).direction = .BEARISH := by
  have hg : ¬ bearFiveCandles.length < 5 := by decide
  rw [ctm_direction bearFiveCandles 5 hg,
    show ilocTail bearFiveCandles 5 = bearFiveCandles from rfl,
    show bearFiveCandles.countP (fun c => c.Close > c.Open) = 0 from by
      norm_num [bearFiveCandles],
    show bearFiveCandles.countP (fun c => c.Close < c.Open) = 5 from by
      norm_num [bearFiveCandles],
    show bearFiveCandles.length = 5 from rfl]
  unfold directionStrength
  norm_num

/-- C4 (witness): the gating conditions instantiated on the 25-candle
demonstration series, on which a reversal is in fact reported. -/
theorem C4_reversal_gating_witness :
    (0.6 : ℚ) < (detect_reversal demoCandles 5 20).previous_trend_strength.getD 0 ∧
    (((detect_reversal demoCandles 5 20).previous_trend = .BULLISH ∧
        (detect_reversal demoCandles 5 20).recent_trend.getD .NEUTRAL = .BEARISH) ∨
      ((detect_reversal demoCandles 5 20).previous_trend = .BEARISH ∧
        (detect_reversal demoCandles 5 20).recent_trend.getD .NEUTRAL = .BULLISH)) ∧
    (detect_reversal demoCandles 5 20).reversal_strength =
      ((detect_reversal demoCandles 5 20).recent_momentum.getD
        { direction := .NEUTRAL, strength := 0, consistency := 0,
          momentum_score := 0 }).consistency :=
  (C4_reversal_gating demoCandles 5 20).1 (by
    rw [detect_reversal_main demoCandles 5 20 (by decide),
      show ilocHistorical demoCandles 20 5 = strongBullCandles from rfl,
      show ilocTail demoCandles 5 = bearFiveCandles from rfl]
    unfold reversalHit
    rw [if_pos sb_score_gt, if_pos ⟨sb_direction, bf_direction⟩])

/-- C2 (witness): the gating equivalence instantiated at a concrete
single-timeframe analyses map. -/
theorem C2_consensus_gating_witness :
    (get_timeframe_consensus [("1d", 0.4)] 3
        [("4h", { enhanced_signal := some Sig.SELL })]).consensus = .BUY ↔
      (tally [("1d", 0.4)] [("4h", { enhanced_signal := some Sig.SELL })]).weighted_sell <
          (tally [("1d", 0.4)] [("4h", { enhanced_signal := some Sig.SELL })]).weighted_buy ∧
        3 ≤ (tally [("1d", 0.4)] [("4h", { enhanced_signal := some Sig.SELL })]).buy_count :=
  (C2_consensus_gating [("1d", 0.4)] 3 [("4h", { enhanced_signal := some Sig.SELL })]).1

end ForexAnalyzer
